import Mathlib

/-!
Verification of the client-side authenticated-request pipeline of
`frontend/src/lib/api.client.ts` (axios client with authentication
interceptors), shallowly embedded in Lean.

The embedding follows the source file:

* `Store` models the `TokenManager` class state together with the
  `localStorage` mirror (`memAccess`/`memRefresh` are the private in-memory
  fields, `stAccess`/`stRefresh` the `accessToken`/`refreshToken` keys of
  durable storage).  A browser environment (`typeof window !== 'undefined'`)
  with non-failing storage is assumed throughout.
* `onResponseError` models one atomic invocation of the response-error
  interceptor (lines 143-213): in the single-threaded event loop the handler
  runs without interruption from its entry until it either rejects, queues
  itself on `failedQueue`, issues the refresh call (then suspends on the
  `await`), or schedules the network-error retry.
* `settleSuccess` / `settleFailure` model the continuation after the awaited
  `axios.post('/api/auth/refresh', ...)` settles (lines 179-199), including
  the `finally` that clears `isRefreshing`.
-/

set_option autoImplicit false

/-- State of the `TokenManager` instance plus the `localStorage` mirror.
`memAccess`/`memRefresh` are the private fields `accessToken`/`refreshToken`;
`stAccess`/`stRefresh` are the `localStorage` entries under keys
`accessToken`/`refreshToken`; `isInit` is the `isInitialized` flag. -/
structure Store where
  memAccess : Option String
  memRefresh : Option String
  stAccess : Option String
  stRefresh : Option String
  isInit : Bool
deriving DecidableEq, Repr

/-- `TokenManager.setTokens`: overwrite both in-memory fields and both
`localStorage` entries. -/
def setTokens (s : Store) (a r : String) : Store :=
  { s with memAccess := some a, memRefresh := some r,
           stAccess := some a, stRefresh := some r }

/-- `TokenManager.clearTokens`: null both in-memory fields and remove both
`localStorage` entries. -/
def clearTokens (s : Store) : Store :=
  { s with memAccess := none, memRefresh := none,
           stAccess := none, stRefresh := none }

/-- Body of `TokenManager._doInitialize`: read the stored tokens and adopt
them only when both are present, then mark the manager initialized.  The
durable entries themselves are not written. -/
def doInitLoad (s : Store) : Store :=
  if s.stAccess.isSome && s.stRefresh.isSome then
    { s with memAccess := s.stAccess, memRefresh := s.stRefresh, isInit := true }
  else
    { s with isInit := true }

/-- `TokenManager.initialize` in a browser context: a no-op once
`isInitialized` is set, otherwise it performs the load. -/
def tmInit (s : Store) : Store :=
  if s.isInit then s else doInitLoad s

/-- An outgoing HTTP request as far as the pipeline observes it: method,
path, the `Authorization` header (if any) and the body payload. -/
structure HttpRequest where
  method : String
  path : String
  authHeader : Option String
  body : Option String
deriving DecidableEq, Repr

/-- The refresh call of line 175: `axios.post('/api/auth/refresh',
{ refreshToken })` on the RAW axios export, not on `apiClient` — so neither
of `apiClient`'s interceptors applies and no `Authorization` header is
attached. -/
def buildRefreshRequest (rt : String) : HttpRequest :=
  { method := "POST", path := "/api/auth/refresh",
    authHeader := none, body := some rt }

/-- The request interceptor of `apiClient` (lines 126-138): after ensuring
initialization, attach `Bearer <accessToken>` when an access token is
present. -/
def attachAuthHeader (s : Store) (req : HttpRequest) : HttpRequest :=
  match (tmInit s).memAccess with
  | some tok => { req with authHeader := some ("Bearer " ++ tok) }
  | none => req

/-- Module-level interceptor state plus the per-request markers and the
observable trace.  `failedQueue` holds the request ids whose continuations
were pushed (arrival order); `retried` holds the ids whose config has
`_retry = true`; `retryCounted` the ids with `_retryCount` set;
`refreshCalls` the refresh requests issued so far (in order); `navCount`
the number of `navigateToLogin()` invocations. -/
structure St where
  store : Store
  isRefreshing : Bool
  failedQueue : List Nat
  retried : List Nat
  retryCounted : List Nat
  refreshCalls : List HttpRequest
  navCount : Nat
deriving DecidableEq, Repr

/-- The error argument of the response-error interceptor: either a response
with a status code, or a transport failure with no response at all. -/
inductive ErrKind where
  | status (code : Nat)
  | network
deriving DecidableEq, Repr

/-- What one interceptor invocation does with the failed request. -/
inductive HandlerAction where
  /-- Set the flag and issue the refresh call, then suspend awaiting it. -/
  | issueRefresh (req : HttpRequest)
  /-- Push the continuation onto `failedQueue` and suspend. -/
  | queued
  /-- No refresh token: tokens were cleared, navigation invoked, and the
  original error rejected. -/
  | logoutReject
  /-- Network failure, first occurrence: re-dispatch after the given delay. -/
  | networkRetry (delayMs : Nat)
  /-- Reject the error unchanged (line 212). -/
  | rejectAsIs
deriving DecidableEq, Repr

/-- One atomic run of the response-error interceptor (lines 143-213) for
request `rid`, up to its first suspension point. -/
def onResponseError (s : St) (rid : Nat) (err : ErrKind) : St × HandlerAction :=
  match err with
  | .status code =>
    if code = 401 ∧ rid ∉ s.retried then
      match s.store.memRefresh with
      | none =>
        ({ s with store := clearTokens s.store, navCount := s.navCount + 1 },
         .logoutReject)
      | some rt =>
        if s.isRefreshing then
          ({ s with failedQueue := s.failedQueue ++ [rid] }, .queued)
        else
          ({ s with retried := s.retried ++ [rid], isRefreshing := true,
                    refreshCalls := s.refreshCalls ++ [buildRefreshRequest rt] },
           .issueRefresh (buildRefreshRequest rt))
    else
      (s, .rejectAsIs)
  | .network =>
    if rid ∉ s.retryCounted then
      ({ s with retryCounted := s.retryCounted ++ [rid] }, .networkRetry 1000)
    else
      (s, .rejectAsIs)

/-- State effect of one 401 entering the interceptor. -/
def enter401 (s : St) (rid : Nat) : St :=
  (onResponseError s rid (.status 401)).1

/-- A batch of concurrent 401s entering the interceptor one after another in
the given arrival order (the event loop runs each handler prefix atomically). -/
def enterAll (s : St) (order : List Nat) : St :=
  order.foldl enter401 s

/-- Outcome of the awaited refresh call: a new token pair, or a failure —
either a non-2xx response (raw axios rejects, carrying the status) or a
transport error (`none`).  Both reach the same `catch` block. -/
inductive RefreshOutcome where
  | success (a2 r2 : String)
  | failure (status : Option Nat)
deriving DecidableEq, Repr

/-- Continuation after the refresh call resolves (lines 179-190 plus the
`finally`): store the new pair, resolve every queued continuation with the
new access token, set the trigger's header and re-dispatch it.

The returned list is the order in which resubmissions are INITIATED, each
paired with the `Authorization` header value it carries: `resolve(token)`
only schedules the queued `.then` continuations as microtasks, while
`apiClient(originalRequest)` on line 190 runs synchronously in the current
continuation, so the trigger's resubmission is initiated first, then the
queued entries in queue order. -/
def settleSuccess (s : St) (trigger : Nat) (a2 r2 : String) :
    St × List (Nat × String) :=
  ({ s with store := setTokens s.store a2 r2, failedQueue := [],
            isRefreshing := false },
   (trigger, "Bearer " ++ a2) :: s.failedQueue.map (fun r => (r, "Bearer " ++ a2)))

/-- Continuation after the refresh call rejects (lines 191-199): reject every
queued continuation with the refresh error and empty the queue
(`processQueue`), clear the tokens, invoke `navigateToLogin()`, reject the
trigger's promise with the refresh error, and clear the flag in `finally`.
The returned list is the set of callers rejected with the refresh error. -/
def settleFailure (s : St) (trigger : Nat) : St × List Nat :=
  ({ s with failedQueue := [], store := clearTokens s.store,
            navCount := s.navCount + 1, isRefreshing := false },
   s.failedQueue ++ [trigger])

/-- Observable result of one full refresh cycle. -/
structure RunResult where
  st : St
  /-- Resubmissions in initiation order, with their auth header values. -/
  replays : List (Nat × String)
  /-- Callers rejected with the refresh error. -/
  rejected : List Nat
deriving DecidableEq, Repr

/-- Interceptor state right after login stored the pair `(a1, r1)`:
tokens present in memory and storage, no refresh in flight, empty queue,
fresh request configs, no refresh calls issued, no navigation yet. -/
def st0 (a1 r1 : String) : St :=
  { store := { memAccess := some a1, memRefresh := some r1,
               stAccess := some a1, stRefresh := some r1, isInit := true },
    isRefreshing := false, failedQueue := [], retried := [],
    retryCounted := [], refreshCalls := [], navCount := 0 }

/-- One full concurrent-401 refresh cycle: requests `t :: rest` all receive
401 while `(a1, r1)` is stored and enter the interceptor in that order
(`t` first, so `t` triggers the refresh), then the refresh call settles
with outcome `oc`. -/
def runScenario (t : Nat) (rest : List Nat) (a1 r1 : String)
    (oc : RefreshOutcome) : RunResult :=
  let s1 := enterAll (st0 a1 r1) (t :: rest)
  match oc with
  | .success a2 r2 =>
    let p := settleSuccess s1 t a2 r2
    { st := p.1, replays := p.2, rejected := [] }
  | .failure _ =>
    let p := settleFailure s1 t
    { st := p.1, replays := [], rejected := p.2 }

/-!
Model for the concurrent-initialization claim.  `TokenManager.initialize`
(lines 15-23) guards the load with `isInitialized` and with the shared
`initPromise`; a second caller arriving while a load is in progress gets the
same promise and merely awaits it, so the `_doInitialize` body — the single
durable-storage read — runs once.  `InitSys` is the manager state seen by
two concurrent callers of `initialize()`, each advanced one atomic event-loop
slice at a time by a schedule; `stA`/`stR` are the fixed contents of durable
storage. -/

/-- Where one caller of `initialize()` stands. -/
inductive InitPhase where
  /-- has not invoked `initialize()` yet. -/
  | idle
  /-- invoked it while a load was in progress; awaits the shared promise. -/
  | waiting
  /-- owns the in-progress `_doInitialize` body. -/
  | loading
  /-- its `initialize()` call has completed. -/
  | done
deriving DecidableEq, Repr

/-- Manager state plus the two callers' phases and the count of
durable-storage reads performed. -/
structure InitSys where
  p0 : InitPhase
  p1 : InitPhase
  memA : Option String
  memR : Option String
  isInit : Bool
  promSet : Bool
  readCount : Nat
deriving DecidableEq, Repr

/-- In-memory access token after a completed load from storage `(stA, stR)`:
`_doInitialize` adopts the stored pair only when both parts are present. -/
def loadedA (stA stR : Option String) : Option String :=
  if stA.isSome && stR.isSome then stA else none

/-- In-memory refresh token after a completed load from storage. -/
def loadedR (stA stR : Option String) : Option String :=
  if stA.isSome && stR.isSome then stR else none

/-- One atomic slice of one caller:
entering `initialize()` returns at once when `isInitialized`, joins the
shared promise when one is set, and otherwise claims the promise and starts
the load; the load body performs the single storage read, adopts the pair
when complete, and marks initialized (resolving the shared promise, which
lets a waiting caller finish). -/
def initStepPhase (stA stR : Option String) (s : InitSys) (p : InitPhase) :
    InitPhase × InitSys :=
  match p with
  | .idle =>
    if s.isInit then (.done, s)
    else if s.promSet then (.waiting, s)
    else (.loading, { s with promSet := true })
  | .loading =>
    (.done, { s with readCount := s.readCount + 1,
                     memA := if stA.isSome && stR.isSome then stA else s.memA,
                     memR := if stA.isSome && stR.isSome then stR else s.memR,
                     isInit := true, promSet := false })
  | .waiting => if s.isInit then (.done, s) else (.waiting, s)
  | .done => (.done, s)

/-- Advance caller 1 when `c`, caller 0 otherwise. -/
def initStep (stA stR : Option String) (s : InitSys) (c : Bool) : InitSys :=
  if c then
    let r := initStepPhase stA stR s s.p1
    { r.2 with p1 := r.1 }
  else
    let r := initStepPhase stA stR s s.p0
    { r.2 with p0 := r.1 }

/-- A fresh `TokenManager`: nothing loaded, no promise, no reads. -/
def initSys0 : InitSys :=
  { p0 := .idle, p1 := .idle, memA := none, memR := none,
    isInit := false, promSet := false, readCount := 0 }

/-- Run the two callers under an arbitrary interleaving. -/
def initRun (stA stR : Option String) (sched : List Bool) : InitSys :=
  sched.foldl (initStep stA stR) initSys0

/-- Inductive invariant of the two-caller initialization system. -/
def InitInv (stA stR : Option String) (s : InitSys) : Prop :=
  (s.readCount = if s.isInit then 1 else 0) ∧
  (s.promSet = true ↔ (s.p0 = .loading ∨ s.p1 = .loading)) ∧
  ¬(s.p0 = .loading ∧ s.p1 = .loading) ∧
  (s.isInit = true → s.p0 ≠ .loading ∧ s.p1 ≠ .loading) ∧
  (s.p0 = .done → s.isInit = true) ∧
  (s.p1 = .done → s.isInit = true) ∧
  (s.memA = if s.isInit then loadedA stA stR else none) ∧
  (s.memR = if s.isInit then loadedR stA stR else none)

/-- The externally invokable credential-store operations (elements of the
claim about the all-or-nothing invariant). -/
inductive StoreOp where
  /-- `initialize()` (its load body, guarded by `isInitialized`). -/
  | initOp
  /-- `setTokens(access, refresh)`. -/
  | setOp (a r : String)
  /-- `clearTokens()`. -/
  | clearOp
deriving DecidableEq, Repr

/-- Apply one store operation. -/
def applyOp (s : Store) : StoreOp → Store
  | .initOp => tmInit s
  | .setOp a r => setTokens s a r
  | .clearOp => clearTokens s

/-- Apply a sequence of store operations. -/
def applyOps (s : Store) (l : List StoreOp) : Store := l.foldl applyOp s

/-- The all-or-nothing property: in memory and in durable storage, the two
credentials are either both present or both absent. -/
def allOrNothing (s : Store) : Prop :=
  (s.memAccess.isSome = s.memRefresh.isSome) ∧
  (s.stAccess.isSome = s.stRefresh.isSome)

/-- Helper: a 401 arriving while a refresh is already in flight (and the
request not yet retried, a refresh token present) only appends the request
to the queue. -/
theorem enter401_inflight (s : St) (r : Nat) (rt : String)
    (hflag : s.isRefreshing = true) (hrt : s.store.memRefresh = some rt)
    (hr : r ∉ s.retried) :
    enter401 s r = { s with failedQueue := s.failedQueue ++ [r] } := by
  simp [enter401, onResponseError, hrt, hflag, hr]

/-- Helper: a batch of fresh 401s arriving while a refresh is in flight is
appended to the queue in arrival order, and nothing else changes. -/
theorem enterAll_inflight (l : List Nat) : ∀ (s : St) (rt : String),
    s.isRefreshing = true → s.store.memRefresh = some rt →
    (∀ r ∈ l, r ∉ s.retried) →
    enterAll s l = { s with failedQueue := s.failedQueue ++ l } := by
  induction l with
  | nil => intro s rt _ _ _; simp [enterAll]
  | cons r l ih =>
    intro s rt hflag hrt hl
    have hstep : enter401 s r = { s with failedQueue := s.failedQueue ++ [r] } :=
      enter401_inflight s r rt hflag hrt (hl r (by simp))
    have htail : enterAll { s with failedQueue := s.failedQueue ++ [r] } l =
        { s with failedQueue := (s.failedQueue ++ [r]) ++ l } :=
      ih { s with failedQueue := s.failedQueue ++ [r] } rt hflag hrt
        (fun x hx => hl x (by simp [hx]))
    show enterAll (enter401 s r) l = _
    rw [hstep, htail]
    simp

/-- Helper: the state after `N` fresh concurrent 401 handlers (arrival order
`t :: rest`, all requests distinct from `t`) have each run to their first
suspension point, starting from the logged-in state: the first one set the
flag, marked itself retried and issued the single refresh call; the others
queued in arrival order. -/
theorem phase1 (t : Nat) (rest : List Nat) (a1 r1 : String) (ht : t ∉ rest) :
    enterAll (st0 a1 r1) (t :: rest) =
      { st0 a1 r1 with retried := [t], isRefreshing := true,
                       refreshCalls := [buildRefreshRequest r1],
                       failedQueue := rest } := by
  have h1 : enter401 (st0 a1 r1) t =
      { st0 a1 r1 with retried := [t], isRefreshing := true,
                       refreshCalls := [buildRefreshRequest r1] } := by
    simp [enter401, onResponseError, st0]
  have h2 : enterAll { st0 a1 r1 with retried := [t], isRefreshing := true,
                                      refreshCalls := [buildRefreshRequest r1] }
        rest =
      { st0 a1 r1 with retried := [t], isRefreshing := true,
                       refreshCalls := [buildRefreshRequest r1],
                       failedQueue := rest } := by
    have := enterAll_inflight rest
      { st0 a1 r1 with retried := [t], isRefreshing := true,
                       refreshCalls := [buildRefreshRequest r1] } r1 rfl rfl
      (fun x hx => by
        simp only [st0, List.mem_singleton]
        intro hxt
        exact ht (hxt ▸ hx))
    simpa [st0] using this
  show enterAll (enter401 (st0 a1 r1) t) rest = _
  rw [h1, h2]

/-- Helper: `runScenario` on a successful refresh, unfolded. -/
theorem runScenario_success_def (t : Nat) (rest : List Nat)
    (a1 r1 a2 r2 : String) :
    runScenario t rest a1 r1 (.success a2 r2) =
      { st := (settleSuccess (enterAll (st0 a1 r1) (t :: rest)) t a2 r2).1,
        replays := (settleSuccess (enterAll (st0 a1 r1) (t :: rest)) t a2 r2).2,
        rejected := [] } := rfl

/-- Helper: `runScenario` on a failed refresh, unfolded. -/
theorem runScenario_failure_def (t : Nat) (rest : List Nat) (a1 r1 : String)
    (code : Option Nat) :
    runScenario t rest a1 r1 (.failure code) =
      { st := (settleFailure (enterAll (st0 a1 r1) (t :: rest)) t).1,
        replays := [],
        rejected := (settleFailure (enterAll (st0 a1 r1) (t :: rest)) t).2 } :=
  rfl

/-- Claim C1: for any N concurrent requests (N ≥ 2, arrival order
`t :: rest`) that each receive a 401 while the same credential pair
`(a1, r1)` is stored, exactly one refresh network call is issued — the first
failing request sets `isRefreshing` and issues the call, every later one is
appended to `failedQueue` instead — and `isRefreshing` is cleared whatever
the refresh outcome is. -/
theorem c1_at_most_one_refresh (t : Nat) (rest : List Nat) (a1 r1 : String)
    (oc : RefreshOutcome) (_hn : rest ≠ []) (ht : t ∉ rest) :
    (enterAll (st0 a1 r1) (t :: rest)).refreshCalls = [buildRefreshRequest r1] ∧
    (enterAll (st0 a1 r1) (t :: rest)).isRefreshing = true ∧
    (enterAll (st0 a1 r1) (t :: rest)).failedQueue = rest ∧
    (runScenario t rest a1 r1 oc).st.isRefreshing = false := by
  have hp := phase1 t rest a1 r1 ht
  refine ⟨by rw [hp], by rw [hp], by rw [hp], ?_⟩
  cases oc with
  | success a2 r2 => simp [runScenario, hp, settleSuccess]
  | failure code => simp [runScenario, hp, settleFailure]

theorem c1_witness :
    ([1, 2] : List Nat) ≠ [] ∧ (0 : Nat) ∉ ([1, 2] : List Nat) ∧
    ((enterAll (st0 "A1" "R1") [0, 1, 2]).refreshCalls
        = [buildRefreshRequest "R1"] ∧
      (enterAll (st0 "A1" "R1") [0, 1, 2]).isRefreshing = true ∧
      (enterAll (st0 "A1" "R1") [0, 1, 2]).failedQueue = [1, 2] ∧
      (runScenario 0 [1, 2] "A1" "R1" (.failure (some 400))).st.isRefreshing
        = false) :=
  ⟨by decide, by decide,
   c1_at_most_one_refresh 0 [1, 2] "A1" "R1" (.failure (some 400))
     (by decide) (by decide)⟩

/-- Claim C2: if the refresh call succeeds with the new pair `(a2, r2)`,
every originally-failed request — the trigger `t` and every queued one —
is resubmitted carrying header `Authorization: Bearer a2`, none is dropped,
and the credential store ends holding `(a2, r2)` in memory and in durable
storage. -/
theorem c2_success_replays_all (t : Nat) (rest : List Nat)
    (a1 r1 a2 r2 : String) (ht : t ∉ rest) :
    (runScenario t rest a1 r1 (.success a2 r2)).replays =
      (t, "Bearer " ++ a2) :: rest.map (fun r => (r, "Bearer " ++ a2)) ∧
    (runScenario t rest a1 r1 (.success a2 r2)).replays.map Prod.fst
      = t :: rest ∧
    (runScenario t rest a1 r1 (.success a2 r2)).st.store.memAccess = some a2 ∧
    (runScenario t rest a1 r1 (.success a2 r2)).st.store.memRefresh = some r2 ∧
    (runScenario t rest a1 r1 (.success a2 r2)).st.store.stAccess = some a2 ∧
    (runScenario t rest a1 r1 (.success a2 r2)).st.store.stRefresh = some r2 := by
  rw [runScenario_success_def, phase1 t rest a1 r1 ht]
  refine ⟨?_, ?_, ?_, ?_, ?_, ?_⟩ <;>
    (simp [settleSuccess, setTokens, st0, List.map_map];
     try exact List.map_id rest)

theorem c2_witness :
    (0 : Nat) ∉ ([1, 2] : List Nat) ∧
    ((runScenario 0 [1, 2] "A1" "R1" (.success "A2" "R2")).replays =
        (0, "Bearer " ++ "A2")
          :: [1, 2].map (fun r => (r, "Bearer " ++ "A2")) ∧
      (runScenario 0 [1, 2] "A1" "R1"
          (.success "A2" "R2")).replays.map Prod.fst = 0 :: [1, 2] ∧
      (runScenario 0 [1, 2] "A1" "R1"
          (.success "A2" "R2")).st.store.memAccess = some "A2" ∧
      (runScenario 0 [1, 2] "A1" "R1"
          (.success "A2" "R2")).st.store.memRefresh = some "R2" ∧
      (runScenario 0 [1, 2] "A1" "R1"
          (.success "A2" "R2")).st.store.stAccess = some "A2" ∧
      (runScenario 0 [1, 2] "A1" "R1"
          (.success "A2" "R2")).st.store.stRefresh = some "R2") :=
  ⟨by decide, c2_success_replays_all 0 [1, 2] "A1" "R1" "A2" "R2" (by decide)⟩

/-- Claim C3: if the refresh call fails (non-success status or transport
error), every queued caller and the trigger are rejected with the refresh
error, the credential store ends cleared in memory and durable storage, the
queue and the in-flight flag are cleared, and `navigateToLogin` is invoked
exactly once. -/
theorem c3_failure_rejects_all (t : Nat) (rest : List Nat) (a1 r1 : String)
    (code : Option Nat) (ht : t ∉ rest) :
    (runScenario t rest a1 r1 (.failure code)).rejected = rest ++ [t] ∧
    (runScenario t rest a1 r1 (.failure code)).st.store.memAccess = none ∧
    (runScenario t rest a1 r1 (.failure code)).st.store.memRefresh = none ∧
    (runScenario t rest a1 r1 (.failure code)).st.store.stAccess = none ∧
    (runScenario t rest a1 r1 (.failure code)).st.store.stRefresh = none ∧
    (runScenario t rest a1 r1 (.failure code)).st.failedQueue = [] ∧
    (runScenario t rest a1 r1 (.failure code)).st.isRefreshing = false ∧
    (runScenario t rest a1 r1 (.failure code)).st.navCount = 1 := by
  rw [runScenario_failure_def, phase1 t rest a1 r1 ht]
  refine ⟨?_, ?_, ?_, ?_, ?_, ?_, ?_, ?_⟩ <;>
    simp [settleFailure, clearTokens, st0]

theorem c3_witness :
    (0 : Nat) ∉ ([1, 2] : List Nat) ∧
    ((runScenario 0 [1, 2] "A1" "R1" (.failure (some 400))).rejected
        = [1, 2] ++ [0] ∧
      (runScenario 0 [1, 2] "A1" "R1"
          (.failure (some 400))).st.store.memAccess = none ∧
      (runScenario 0 [1, 2] "A1" "R1"
          (.failure (some 400))).st.store.memRefresh = none ∧
      (runScenario 0 [1, 2] "A1" "R1"
          (.failure (some 400))).st.store.stAccess = none ∧
      (runScenario 0 [1, 2] "A1" "R1"
          (.failure (some 400))).st.store.stRefresh = none ∧
      (runScenario 0 [1, 2] "A1" "R1" (.failure (some 400))).st.failedQueue
        = [] ∧
      (runScenario 0 [1, 2] "A1" "R1" (.failure (some 400))).st.isRefreshing
        = false ∧
      (runScenario 0 [1, 2] "A1" "R1" (.failure (some 400))).st.navCount
        = 1) :=
  ⟨by decide, c3_failure_rejects_all 0 [1, 2] "A1" "R1" (some 400) (by decide)⟩

/-- Claim C4, counterexample: request 1 is queued behind the refresh
triggered by request 0; the refresh succeeds; request 1 is replayed and
fails with 401 again.  Because only the trigger's config got
`_retry = true` (line 171) — queued requests are replayed with `_retry`
still unset — the replayed request 1 is NOT surfaced as-is: it re-enters
the recovery path and issues a second refresh network call. -/
theorem c4_counterexample :
    (onResponseError (runScenario 0 [1] "A1" "R1" (.success "A2" "R2")).st
        1 (.status 401)).2
      = HandlerAction.issueRefresh (buildRefreshRequest "R2") ∧
    (onResponseError (runScenario 0 [1] "A1" "R1" (.success "A2" "R2")).st
        1 (.status 401)).1.refreshCalls.length = 2 ∧
    (runScenario 0 [1] "A1" "R1" (.success "A2" "R2")).st.retried = [0] := by
  decide

/-- Claim C4 (amended): a request whose config carries `_retry = true` —
which after a refresh cycle is only the request that triggered the refresh —
that fails with 401 again is not retried: the interceptor surfaces the
failure as-is and changes no state. -/
theorem c4_no_second_retry_for_marked (s : St) (rid : Nat)
    (h : rid ∈ s.retried) :
    onResponseError s rid (.status 401) = (s, HandlerAction.rejectAsIs) := by
  simp [onResponseError, h]

theorem c4_witness :
    (3 : Nat) ∈ ({ st0 "A2" "R2" with retried := [3] } : St).retried ∧
    onResponseError { st0 "A2" "R2" with retried := [3] } 3 (.status 401) =
      ({ st0 "A2" "R2" with retried := [3] }, HandlerAction.rejectAsIs) :=
  ⟨by decide,
   c4_no_second_retry_for_marked { st0 "A2" "R2" with retried := [3] } 3
     (by decide)⟩

/-- Claim C5, counterexample: three concurrent 401s with arrival order
`0, 1, 2`; request 0 triggers the refresh, requests 1 and 2 are queued; the
refresh succeeds.  `resolve(token)` only schedules the queued continuations
as microtasks while `apiClient(originalRequest)` on line 190 runs in the
current continuation, so the trigger's resubmission is initiated FIRST —
strictly ahead of the queued entries — contradicting the claim that it is
not initiated ahead of them. -/
theorem c5_counterexample :
    (runScenario 0 [1, 2] "A1" "R1" (.success "A2" "R2")).replays.map Prod.fst
      = [0, 1, 2] ∧
    (enterAll (st0 "A1" "R1") [0, 1, 2]).failedQueue = [1, 2] ∧
    List.indexOf 0
        ((runScenario 0 [1, 2] "A1" "R1"
          (.success "A2" "R2")).replays.map Prod.fst) <
      List.indexOf 1
        ((runScenario 0 [1, 2] "A1" "R1"
          (.success "A2" "R2")).replays.map Prod.fst) := by
  decide

/-- Claim C5 (amended): on refresh success, the queued entries are replayed
in FIFO order of arrival, but the request that triggered the refresh is
special-cased — its resubmission is initiated directly (line 190), ahead of
every queued entry, so the full initiation order is the trigger followed by
the queue. -/
theorem c5_replay_initiation_order (t : Nat) (rest : List Nat)
    (a1 r1 a2 r2 : String) (ht : t ∉ rest) :
    (runScenario t rest a1 r1 (.success a2 r2)).replays.map Prod.fst
      = t :: rest := by
  rw [runScenario_success_def, phase1 t rest a1 r1 ht]
  simp [settleSuccess, List.map_map]
  exact List.map_id rest

theorem c5_witness :
    (4 : Nat) ∉ ([7, 9] : List Nat) ∧
    (runScenario 4 [7, 9] "A1" "R1" (.success "A2" "R2")).replays.map Prod.fst
      = 4 :: [7, 9] :=
  ⟨by decide,
   c5_replay_initiation_order 4 [7, 9] "A1" "R1" "A2" "R2" (by decide)⟩

/-- Claim C6, counterexample: a request whose config already carries
`_retry = true` (request 5 here) that receives a 401 while no refresh
credential is stored is NOT handled by the clear-and-navigate branch: the
whole 401 block is guarded by `!originalRequest._retry` (line 147), so the
interceptor rejects the error as-is without clearing credentials and
without invoking the navigation callback. -/
theorem c6_counterexample :
    onResponseError
        { st0 "A" "R" with store := clearTokens (st0 "A" "R").store,
                           retried := [5] } 5 (.status 401) =
      ({ st0 "A" "R" with store := clearTokens (st0 "A" "R").store,
                          retried := [5] }, HandlerAction.rejectAsIs) ∧
    (onResponseError
        { st0 "A" "R" with store := clearTokens (st0 "A" "R").store,
                           retried := [5] } 5 (.status 401)).1.navCount = 0 := by
  decide

/-- Claim C6 (amended): every request NOT yet marked `_retry` that receives
a 401 while no refresh credential is stored makes the interceptor clear the
credentials, invoke the navigation callback once, and reject the request,
without issuing any refresh network call. -/
theorem c6_no_refresh_token_logout (s : St) (rid : Nat)
    (h1 : rid ∉ s.retried) (h2 : s.store.memRefresh = none) :
    onResponseError s rid (.status 401) =
      ({ s with store := clearTokens s.store, navCount := s.navCount + 1 },
       HandlerAction.logoutReject) ∧
    (onResponseError s rid (.status 401)).1.refreshCalls = s.refreshCalls := by
  constructor
  · simp [onResponseError, h1, h2]
  · simp [onResponseError, h1, h2]

theorem c6_witness :
    (2 : Nat) ∉ (st0 "A" "R").retried ∧
    ({ st0 "A" "R" with
       store := clearTokens (st0 "A" "R").store } : St).store.memRefresh
      = none ∧
    (onResponseError { st0 "A" "R" with
        store := clearTokens (st0 "A" "R").store } 2 (.status 401) =
      ({ st0 "A" "R" with
         store := clearTokens ({ st0 "A" "R" with
           store := clearTokens (st0 "A" "R").store } : St).store,
         navCount := 0 + 1 },
       HandlerAction.logoutReject) ∧
    (onResponseError { st0 "A" "R" with
        store := clearTokens (st0 "A" "R").store } 2
        (.status 401)).1.refreshCalls = []) :=
  ⟨by decide, by decide,
   c6_no_refresh_token_logout
     { st0 "A" "R" with store := clearTokens (st0 "A" "R").store } 2
     (by decide) (by decide)⟩

/-- Claim C9: a request failing with no response at all and not yet carrying
the `_retryCount` marker is retried exactly once after a fixed 1000 ms
delay, regardless of the credential state or the refresh flag (the state
`s` is arbitrary); a marked request that fails again is rejected unchanged
with no further retry and no state change. -/
theorem c9_network_retry_once (s : St) (rid : Nat) :
    (rid ∉ s.retryCounted →
      onResponseError s rid .network =
        ({ s with retryCounted := s.retryCounted ++ [rid] },
         HandlerAction.networkRetry 1000)) ∧
    (rid ∈ s.retryCounted →
      onResponseError s rid .network = (s, HandlerAction.rejectAsIs)) := by
  constructor
  · intro h; simp [onResponseError, h]
  · intro h; simp [onResponseError, h]

theorem c9_witness :
    ((6 : Nat) ∉ (st0 "A" "R").retryCounted →
      onResponseError (st0 "A" "R") 6 .network =
        ({ st0 "A" "R" with
           retryCounted := (st0 "A" "R").retryCounted ++ [6] },
         HandlerAction.networkRetry 1000)) ∧
    ((6 : Nat) ∈ (st0 "A" "R").retryCounted →
      onResponseError (st0 "A" "R") 6 .network =
        (st0 "A" "R", HandlerAction.rejectAsIs)) ∧
    (6 : Nat) ∉ (st0 "A" "R").retryCounted ∧
    onResponseError (st0 "A" "R") 6 .network =
      ({ st0 "A" "R" with retryCounted := (st0 "A" "R").retryCounted ++ [6] },
       HandlerAction.networkRetry 1000) :=
  ⟨(c9_network_retry_once (st0 "A" "R") 6).1,
   (c9_network_retry_once (st0 "A" "R") 6).2,
   by decide,
   (c9_network_retry_once (st0 "A" "R") 6).1 (by decide)⟩

/-- Claim C10: the refresh call is issued through the raw transport
(`axios.post`, line 175), not through `apiClient`, so it carries no bearer
access-credential header — although the request interceptor would have
attached one — and when the refresh call itself fails (here with a 401
status), that failure is handled as a refresh failure (queue rejected,
credentials cleared, navigation invoked) and never re-enters the failure
interceptor: the trace still contains exactly one refresh call, so a
failing refresh cannot recursively trigger another refresh. -/
theorem c10_refresh_bypasses_interceptors (t : Nat) (rest : List Nat)
    (a1 r1 : String) (ht : t ∉ rest) :
    (buildRefreshRequest r1).authHeader = none ∧
    attachAuthHeader (st0 a1 r1).store (buildRefreshRequest r1) =
      { buildRefreshRequest r1 with authHeader := some ("Bearer " ++ a1) } ∧
    (runScenario t rest a1 r1 (.failure (some 401))).st.refreshCalls =
      [buildRefreshRequest r1] ∧
    (∀ req ∈ (runScenario t rest a1 r1 (.failure (some 401))).st.refreshCalls,
      req.authHeader = none) ∧
    (runScenario t rest a1 r1 (.failure (some 401))).st.navCount = 1 ∧
    (runScenario t rest a1 r1 (.failure (some 401))).st.store.memRefresh
      = none := by
  rw [runScenario_failure_def, phase1 t rest a1 r1 ht]
  refine ⟨rfl, ?_, ?_, ?_, ?_, ?_⟩ <;>
    simp [settleFailure, clearTokens, st0, attachAuthHeader, tmInit,
          buildRefreshRequest]

theorem c10_witness :
    (0 : Nat) ∉ ([1] : List Nat) ∧
    ((buildRefreshRequest "R1").authHeader = none ∧
      attachAuthHeader (st0 "A1" "R1").store (buildRefreshRequest "R1") =
        { buildRefreshRequest "R1" with
          authHeader := some ("Bearer " ++ "A1") } ∧
      (runScenario 0 [1] "A1" "R1" (.failure (some 401))).st.refreshCalls =
        [buildRefreshRequest "R1"] ∧
      (∀ req ∈ (runScenario 0 [1] "A1" "R1"
          (.failure (some 401))).st.refreshCalls, req.authHeader = none) ∧
      (runScenario 0 [1] "A1" "R1" (.failure (some 401))).st.navCount = 1 ∧
      (runScenario 0 [1] "A1" "R1" (.failure (some 401))).st.store.memRefresh
        = none) :=
  ⟨by decide, c10_refresh_bypasses_interceptors 0 [1] "A1" "R1" (by decide)⟩

set_option maxHeartbeats 2000000

/-- Helper: the invariant is preserved by every step of either caller. -/
theorem initInv_step (stA stR : Option String) (s : InitSys) (c : Bool)
    (h : InitInv stA stR s) : InitInv stA stR (initStep stA stR s c) := by
  obtain ⟨h1, h2, h3, h4, h5, h6, h7, h8⟩ := h
  unfold InitInv initStep initStepPhase loadedA loadedR
  cases c
  · cases hp : s.p0 <;> simp only [hp] <;> split_ifs <;>
      simp_all [loadedA, loadedR]
  · cases hp : s.p1 <;> simp only [hp] <;> split_ifs <;>
      simp_all [loadedA, loadedR]

/-- Helper: the invariant propagates through a fold over any schedule. -/
theorem initInv_fold (stA stR : Option String) (sched : List Bool) :
    ∀ s : InitSys, InitInv stA stR s →
      InitInv stA stR (sched.foldl (initStep stA stR) s) := by
  induction sched with
  | nil => intro s hs; exact hs
  | cons c cs ih => intro s hs; exact ih _ (initInv_step stA stR s c hs)

/-- Helper: the invariant holds after any schedule from the fresh manager. -/
theorem initRun_inv (stA stR : Option String) (sched : List Bool) :
    InitInv stA stR (initRun stA stR sched) := by
  have h0 : InitInv stA stR initSys0 := by
    refine ⟨rfl, by simp [initSys0], by simp [initSys0], by simp [initSys0],
            by simp [initSys0], by simp [initSys0], rfl, rfl⟩
  exact initInv_fold stA stR sched initSys0 h0

/-- Claim C7: under every interleaving of two concurrent (or sequential)
calls to `TokenManager.initialize()` in which both calls complete, exactly
one durable-storage read is performed, and both calls complete with the
same loaded state — the in-memory pair determined by the storage contents. -/
theorem c7_init_reads_storage_once (stA stR : Option String)
    (sched : List Bool)
    (h0 : (initRun stA stR sched).p0 = InitPhase.done)
    (_h1 : (initRun stA stR sched).p1 = InitPhase.done) :
    (initRun stA stR sched).readCount = 1 ∧
    (initRun stA stR sched).memA = loadedA stA stR ∧
    (initRun stA stR sched).memR = loadedR stA stR := by
  obtain ⟨i1, _, _, _, i5, _, i7, i8⟩ := initRun_inv stA stR sched
  have hinit := i5 h0
  exact ⟨by rw [i1, if_pos hinit], by rw [i7, if_pos hinit],
         by rw [i8, if_pos hinit]⟩

theorem c7_witness :
    (initRun (some "A") (some "R") [false, true, false, true]).p0
      = InitPhase.done ∧
    (initRun (some "A") (some "R") [false, true, false, true]).p1
      = InitPhase.done ∧
    ((initRun (some "A") (some "R") [false, true, false, true]).readCount
        = 1 ∧
      (initRun (some "A") (some "R") [false, true, false, true]).memA
        = loadedA (some "A") (some "R") ∧
      (initRun (some "A") (some "R") [false, true, false, true]).memR
        = loadedR (some "A") (some "R")) :=
  ⟨by decide, by decide,
   c7_init_reads_storage_once (some "A") (some "R") [false, true, false, true]
     (by decide) (by decide)⟩

/-- Helper: each single store operation preserves the all-or-nothing
property. -/
theorem applyOp_allOrNothing (s : Store) (op : StoreOp)
    (h : allOrNothing s) : allOrNothing (applyOp s op) := by
  obtain ⟨hm, hs⟩ := h
  cases op with
  | initOp =>
    unfold applyOp tmInit doInitLoad allOrNothing
    split_ifs <;> simp_all
  | setOp a r => simp [applyOp, setTokens, allOrNothing]
  | clearOp => simp [applyOp, clearTokens, allOrNothing]

/-- Claim C8: after any sequence of credential-store operations
(`initialize`, `setTokens`, `clearTokens`) starting from a state whose
observable credentials are all-or-nothing, the store still satisfies
all-or-nothing in memory and in durable storage: no operation leaves a
partial pair observable. -/
theorem c8_all_or_nothing (s : Store) (l : List StoreOp)
    (h : allOrNothing s) : allOrNothing (applyOps s l) := by
  induction l generalizing s with
  | nil => exact h
  | cons op l ih => exact ih (applyOp s op) (applyOp_allOrNothing s op h)

theorem c8_witness :
    allOrNothing
      { memAccess := none, memRefresh := none, stAccess := some "A",
        stRefresh := some "R", isInit := false } ∧
    allOrNothing
      (applyOps
        { memAccess := none, memRefresh := none, stAccess := some "A",
          stRefresh := some "R", isInit := false }
        [StoreOp.initOp, StoreOp.setOp "X" "Y", StoreOp.clearOp,
         StoreOp.initOp]) :=
  ⟨⟨rfl, rfl⟩,
   c8_all_or_nothing
     { memAccess := none, memRefresh := none, stAccess := some "A",
       stRefresh := some "R", isInit := false }
     [StoreOp.initOp, StoreOp.setOp "X" "Y", StoreOp.clearOp, StoreOp.initOp]
     ⟨rfl, rfl⟩⟩
